import Mathlib

/-!
Verification development for the symbolicator shared-cache subsystem and the S3
source downloader.  The definitions below are a shallow embedding of
`crates/symbolicator/src/services/shared_cache.rs` and
`crates/symbolicator-service/src/services/download/s3.rs`: pure Rust functions
become Lean functions, filesystem and channel state is threaded explicitly, and
the outcome of each network interaction is passed in as an explicit parameter so
that the control flow of the Rust code can be reproduced faithfully.  Bytes are
modelled as `Nat`, byte buffers as `List Nat`, and paths as lists of segments.
-/

deriving instance DecidableEq for Except

namespace Symbolicator

/-- Scope of a local cache key (`crate::types::Scope`): either global or
scoped to an opaque tenant identifier. -/
inductive Scope where
  | global
  | scoped (id : String)
  deriving DecidableEq, Repr

/-- Modelled from the spec: the per-tenant directory component of a local
`CacheKey` (its `relative_path` lives in `services/cacher.rs`, which is not part
of the sources here).  The spec only requires it to be a pure, deterministic
function of the key, consisting of the scope directory and the key string. -/
def Scope.dirName : Scope → String
  | .global => "global"
  | .scoped id => id

/-- The local cache key (`services/cacher.rs::CacheKey`): a cache-key string
together with a scope. -/
structure CacheKey where
  cache_key : String
  scope : Scope
  deriving DecidableEq, Repr

/-- Modelled from the spec: `CacheKey::relative_path` from `services/cacher.rs`
(not in the sources); a pure function of the key, yielding the scope directory
followed by the cache-key string. -/
def CacheKey.relativePath (k : CacheKey) : List String :=
  [k.scope.dirName, k.cache_key]

/-- Enumerated cache categories (`crate::cache::CacheName`). -/
inductive CacheName where
  | objects
  | objectMeta
  | symcaches
  | cficaches
  | diagnostics
  deriving DecidableEq, Repr

/-- The string rendering of a cache name, used as the first path component. -/
def CacheName.str : CacheName → String
  | .objects => "objects"
  | .objectMeta => "object_meta"
  | .symcaches => "symcaches"
  | .cficaches => "cficaches"
  | .diagnostics => "diagnostics"

/-- Key for a shared cache item (`shared_cache.rs::SharedCacheKey`). -/
structure SharedCacheKey where
  name : CacheName
  version : Nat
  local_key : CacheKey
  deriving DecidableEq, Repr

/-- `SharedCacheKey::relative_path`: pushes the cache name, the version and the
local key's relative path, in that order. -/
def SharedCacheKey.relativePath (k : SharedCacheKey) : List String :=
  k.name.str :: toString k.version :: k.local_key.relativePath

/-- `SharedCacheKey::gcs_bucket_key`: the relative path rendered with forward
slashes.  (All path segments here are UTF-8 strings, so the lossy fallback in
the Rust code coincides with the direct rendering.) -/
def SharedCacheKey.gcsBucketKey (k : SharedCacheKey) : String :=
  String.intercalate "/" k.relativePath

/-- The result of an attempt to write an entry to the shared cache
(`shared_cache.rs::SharedCacheStoreResult`). -/
inductive SharedCacheStoreResult where
  | written (bytes : Nat)
  | skipped
  deriving DecidableEq, Repr

/-- Errors using the cache backend (`shared_cache.rs::CacheError`). -/
inductive CacheError where
  | connectTimeout
  | other (msg : String)
  deriving DecidableEq, Repr

/-- An open file handle: its full byte content together with the current read
position (Rust `tokio::fs::File`). -/
structure FileHandle where
  content : List Nat
  pos : Nat
  deriving DecidableEq, Repr

/-- `seek(SeekFrom::End(0))`: returns the length of the file and moves the
position to the end. -/
def FileHandle.seekEnd (f : FileHandle) : Nat × FileHandle :=
  (f.content.length, { f with pos := f.content.length })

/-- `File::rewind`: moves the position back to the start. -/
def FileHandle.rewind (f : FileHandle) : FileHandle :=
  { f with pos := 0 }

/-- The bytes a streaming read (`io::copy` / `ReaderStream`) obtains from the
handle: everything from the current position to the end. -/
def FileHandle.readToEnd (f : FileHandle) : List Nat :=
  f.content.drop f.pos

/-- A filesystem modelled as an association list from absolute paths (lists of
segments) to file contents; the first binding for a path wins. -/
def Filesystem := List (List String × List Nat)

instance : DecidableEq Filesystem := by
  unfold Filesystem
  infer_instance

/-- Content of the file at `p`, if one exists. -/
def Filesystem.lookup (fs : Filesystem) (p : List String) : Option (List Nat) :=
  (List.find? (fun e => e.1 = p) fs).map (fun e => e.2)

/-- Writing (or atomically replacing) the file at `p`. -/
def Filesystem.insert (fs : Filesystem) (p : List String) (data : List Nat) : Filesystem :=
  (p, data) :: fs

/-- Trace of one `FilesystemSharedCacheConfig::store` call: the result, the
filesystem afterwards, and the `.tmp` directory in which a temp file was
created (none if the call returned before creating one). -/
structure FsStoreTrace where
  result : Except CacheError SharedCacheStoreResult
  fs : Filesystem
  tmpDir : Option (List String)

/-- `FilesystemSharedCacheConfig::store` (shared_cache.rs lines 389-422): the
target path is `root / key.relative_path`; parent directories are created; if
the target already exists the call returns `Skipped` without touching it;
otherwise a named temp file is created in the sibling `.tmp` directory under
the parent, the source handle is rewound and copied into it, and the temp file
is persisted (renamed) to the target path. -/
def FilesystemSharedCacheConfig.store (root : List String) (key : SharedCacheKey)
    (src : FileHandle) (fs : Filesystem) : FsStoreTrace :=
  let abspath := root ++ key.relativePath
  let parent := abspath.dropLast
  if (fs.lookup abspath).isSome then
    { result := .ok .skipped, fs := fs, tmpDir := none }
  else
    let src := src.rewind
    let bytes := src.readToEnd
    { result := .ok (.written bytes.length)
      fs := fs.insert abspath bytes
      tmpDir := some (parent ++ [".tmp"]) }

/-- `FilesystemSharedCacheConfig::fetch` (shared_cache.rs lines 366-387): opens
`root / key.relative_path`; a missing file yields `none` with nothing written;
otherwise the file is streamed into the writer and the number of copied bytes
is returned. -/
def FilesystemSharedCacheConfig.fetch (root : List String) (key : SharedCacheKey)
    (fs : Filesystem) (writer : List Nat) :
    Except CacheError (Option Nat) × List Nat :=
  match fs.lookup (root ++ key.relativePath) with
  | none => (.ok none, writer)
  | some data => (.ok (some data.length), writer ++ data)

/-- Reasons to store items in the shared cache
(`shared_cache.rs::CacheStoreReason`). -/
inductive CacheStoreReason where
  | new
  | refresh
  deriving DecidableEq, Repr

/-- A URL, abstracted to its path segments and query pairs; `Url::parse` of the
GCS upload base followed by `path_segments_mut().extend` and
`query_pairs_mut().append_pair` manipulates exactly these two components. -/
structure UrlModel where
  pathSegments : List String
  queryPairs : List (String × String)
  deriving DecidableEq, Repr

/-- The upload URL built by `GcsState::store` (shared_cache.rs lines 302-314):
the base `https://storage.googleapis.com/upload/storage/v1/b?uploadType=media`
with the bucket and `o` appended as path segments and `name=<bucket key>` and
`ifGenerationMatch=0` appended as query pairs. -/
def gcsUploadUrl (bucket : String) (bucketKey : String) : UrlModel :=
  { pathSegments := ["upload", "storage", "v1", "b", bucket, "o"]
    queryPairs := [("uploadType", "media"), ("name", bucketKey), ("ifGenerationMatch", "0")] }

/-- The POST request issued by `GcsState::store`: its URL and the streaming
body, which wraps the source handle at its current (rewound) position. -/
structure GcsUploadRequest where
  url : UrlModel
  body : List Nat
  deriving DecidableEq, Repr

/-- Outcome of awaiting the upload request: the connect/store timeout elapsed,
the transport failed, or a response with the given HTTP status arrived. -/
inductive HttpOutcome where
  | timedOut
  | transportError
  | response (status : Nat)
  deriving DecidableEq, Repr

/-- `StatusCode::is_success`: 2xx. -/
def statusIsSuccess (s : Nat) : Bool :=
  200 ≤ s && s < 300

/-- Trace of one `GcsState::store` call: whether `exists` was consulted,
whether an `exists` error was captured to telemetry, the upload request that
was issued (none if the call returned before uploading), and the result. -/
structure GcsStoreTrace where
  existsCalled : Bool
  existsErrorCaptured : Bool
  request : Option GcsUploadRequest
  result : Except CacheError SharedCacheStoreResult
  deriving DecidableEq, Repr

/-- The tail of `GcsState::store` after the optional `exists` pre-check
(shared_cache.rs lines 296-357): seek the source to the end to measure its
length, rewind it, fetch a token, build the conditional upload URL, POST the
streaming body, and classify the response: 2xx yields `Written(total_bytes)`,
412 yields `Skipped`, 403/401/other statuses and transport errors yield
`Other`, and an elapsed timeout yields `ConnectTimeout`. -/
def GcsState.storeUpload (bucket : String) (key : SharedCacheKey) (src : FileHandle)
    (existsCalled existsErrorCaptured : Bool)
    (tokenOutcome : Except String Unit) (uploadOutcome : HttpOutcome) : GcsStoreTrace :=
  let (totalBytes, src) := src.seekEnd
  let src := src.rewind
  match tokenOutcome with
  | .error msg =>
    { existsCalled, existsErrorCaptured, request := none, result := .error (.other msg) }
  | .ok () =>
    let req : GcsUploadRequest :=
      { url := gcsUploadUrl bucket key.gcsBucketKey, body := src.readToEnd }
    let result : Except CacheError SharedCacheStoreResult :=
      match uploadOutcome with
      | .response status =>
        if statusIsSuccess status then .ok (.written totalBytes)
        else if status = 412 then .ok .skipped
        else if status = 403 then
          .error (.other ("Insufficient permissions for bucket " ++ bucket))
        else if status = 401 then .error (.other "Invalid credentials")
        else .error (.other "Error response from GCS")
      | .transportError => .error (.other "Bad GCS response for shared_cache")
      | .timedOut => .error .connectTimeout
    { existsCalled, existsErrorCaptured, request := some req, result }

/-- `GcsState::store` (shared_cache.rs lines 267-357).  When `reason` is
`Refresh` the metadata `exists` check runs first: `Ok(true)` short-circuits to
`Skipped`, `Ok(false)` proceeds, and an error proceeds after being captured to
telemetry unless it is a connect timeout.  When `reason` is `New` the check is
skipped entirely.  The outcomes of the `exists` call, the token fetch and the
upload request are passed in explicitly. -/
def GcsState.store (bucket : String) (key : SharedCacheKey) (src : FileHandle)
    (reason : CacheStoreReason) (existsOutcome : Except CacheError Bool)
    (tokenOutcome : Except String Unit) (uploadOutcome : HttpOutcome) : GcsStoreTrace :=
  match reason with
  | .new => GcsState.storeUpload bucket key src false false tokenOutcome uploadOutcome
  | .refresh =>
    match existsOutcome with
    | .ok true =>
      { existsCalled := true, existsErrorCaptured := false
        request := none, result := .ok .skipped }
    | .ok false => GcsState.storeUpload bucket key src true false tokenOutcome uploadOutcome
    | .error .connectTimeout =>
      GcsState.storeUpload bucket key src true false tokenOutcome uploadOutcome
    | .error (.other _) =>
      GcsState.storeUpload bucket key src true true tokenOutcome uploadOutcome

/-- State of the upload worker loop (`SharedCacheService::upload_worker`,
shared_cache.rs lines 606-631) together with its environment: `queued` counts
`UploadMessage`s waiting in the bounded work channel, `workClosed` records
whether every facade-side sender of that channel has been dropped, `counter`
is the local `uploads_counter`, `inflight` counts spawned `single_uploader`
tasks that have not yet sent on the internal done channel (each holds a clone
of `done_tx`), and `doneQueued` counts done signals sent but not yet received
by the worker. -/
structure WorkerState where
  queued : Nat
  workClosed : Bool
  counter : Nat
  inflight : Nat
  doneQueued : Nat
  deriving DecidableEq, Repr

/-- Number of live senders of the worker's internal done channel: the worker
itself keeps the original `done_tx` alive for the whole loop, and every
in-flight `single_uploader` holds a clone. -/
def WorkerState.doneSenders (s : WorkerState) : Nat :=
  1 + s.inflight

/-- The first `select!` branch (`Some(message) = work_rx.recv(), if
uploads_counter > 0`) is disabled when its precondition is false or when
`recv()` completes with `None`, i.e. the work channel is closed and empty. -/
def WorkerState.workBranchDisabled (s : WorkerState) : Bool :=
  decide (s.counter = 0) || (s.workClosed && decide (s.queued = 0))

/-- The second `select!` branch (`Some(_) = done_rx.recv()`) is disabled when
`recv()` completes with `None`, which happens exactly when the done channel is
empty and all of its senders have been dropped. -/
def WorkerState.doneBranchDisabled (s : WorkerState) : Bool :=
  decide (s.doneQueued = 0) && decide (s.doneSenders = 0)

/-- The `else => break` branch of the worker's `select!` runs exactly when
both other branches are disabled. -/
def WorkerState.canBreak (s : WorkerState) : Bool :=
  s.workBranchDisabled && s.doneBranchDisabled

/-- One step of the upload worker loop and its environment, as the list of
possible successor states: the worker dequeues a message and spawns an
uploader (work branch), the worker receives a done signal and frees a slot
(done branch), an in-flight uploader completes and sends on the done channel
(capacity `max_concurrent_uploads`), the facade enqueues a message on the open
work channel (capacity `qcap = max_upload_queue_size`), or the facade is
dropped, closing the work channel. -/
def workerStep (max qcap : Nat) (s : WorkerState) : List WorkerState :=
  (if 0 < s.counter ∧ 0 < s.queued then
    [{ s with queued := s.queued - 1, counter := s.counter - 1, inflight := s.inflight + 1 }]
  else []) ++
  (if 0 < s.doneQueued then
    [{ s with doneQueued := s.doneQueued - 1, counter := s.counter + 1 }]
  else []) ++
  (if 0 < s.inflight ∧ s.doneQueued < max then
    [{ s with inflight := s.inflight - 1, doneQueued := s.doneQueued + 1 }]
  else []) ++
  (if s.workClosed = false ∧ s.queued < qcap then
    [{ s with queued := s.queued + 1 }]
  else []) ++
  (if s.workClosed = false then [{ s with workClosed := true }] else [])

/-- The worker's initial state: empty channels, open work channel, and
`uploads_counter` initialised to `max_concurrent_uploads`. -/
def workerInit (max : Nat) : WorkerState :=
  { queued := 0, workClosed := false, counter := max, inflight := 0, doneQueued := 0 }

/-- Reachability under `workerStep`. -/
def WorkerReaches (max qcap : Nat) : WorkerState → WorkerState → Prop :=
  Relation.ReflTransGen (fun a b => b ∈ workerStep max qcap a)

/-- A message on the upload queue (`shared_cache.rs::UploadMessage`): the key,
the source file handle, and the store reason; `done_tx` is represented by the
completion receiver handed back to the caller. -/
structure UploadMessageM where
  key : SharedCacheKey
  src : FileHandle
  reason : CacheStoreReason
  deriving DecidableEq, Repr

/-- The `oneshot::Receiver<()>` handed back by `SharedCacheService::store`:
`senderDropped` records whether the corresponding `done_tx` sender has already
been dropped, in which case the completion signal can never fire. -/
structure CompletionReceiver where
  senderDropped : Bool
  deriving DecidableEq, Repr

/-- The shared-cache backend held by an initialised facade. -/
inductive BackendModel where
  | fs (root : List String)
  | gcs (bucket : String)
  deriving DecidableEq, Repr

/-- The inner state of an initialised facade
(`shared_cache.rs::InnerSharedCacheService`): the backend and the bounded
upload queue (`upload_queue_tx`) with its capacity. -/
structure InnerSharedCacheService where
  backend : BackendModel
  queue : List UploadMessageM
  capacity : Nat
  deriving DecidableEq, Repr

/-- `SharedCacheService::store` (shared_cache.rs lines 821-852).  When the
facade is not initialised it returns `none` and changes nothing.  Otherwise it
creates a oneshot channel and `try_send`s an `UploadMessage`: if the queue has
spare capacity the message is enqueued and the live receiver returned; if the
queue is full the message (along with its `done_tx`) is dropped, the
`store.dropped` counter is incremented, and the now-dead receiver is still
returned.  The call never blocks and never returns an error.  Returns the
receiver, the facade state afterwards, and the `store.dropped` counter. -/
def SharedCacheService.store (inner : Option InnerSharedCacheService)
    (dropped : Nat) (msg : UploadMessageM) :
    Option CompletionReceiver × Option InnerSharedCacheService × Nat :=
  match inner with
  | none => (none, none, dropped)
  | some i =>
    if i.queue.length < i.capacity then
      (some { senderDropped := false }, some { i with queue := i.queue ++ [msg] }, dropped)
    else
      (some { senderDropped := true }, some i, dropped + 1)

/-- `SharedCacheService::fetch` (shared_cache.rs lines 735-801).  When the
facade is not initialised it returns `false` without touching the writer.
Otherwise it dispatches to the backend: a hit appends the fetched bytes to the
writer and returns `true`; a miss or any error returns `false`.  The GCS
network outcome is passed in explicitly; the filesystem backend reads from
`fs`. -/
def SharedCacheService.fetch (inner : Option InnerSharedCacheService)
    (fs : Filesystem) (gcsOutcome : Except CacheError (Option (List Nat)))
    (key : SharedCacheKey) (writer : List Nat) : Bool × List Nat :=
  match inner with
  | none => (false, writer)
  | some i =>
    match i.backend with
    | .fs root =>
      match FilesystemSharedCacheConfig.fetch root key fs writer with
      | (.ok (some _), w) => (true, w)
      | (.ok none, w) => (false, w)
      | (.error _, w) => (false, w)
    | .gcs _ =>
      match gcsOutcome with
      | .ok (some data) => (true, writer ++ data)
      | .ok none => (false, writer)
      | .error _ => (false, writer)

/-- Kind of an S3 `GetObjectError` (`aws_sdk_s3::error::GetObjectErrorKind`),
as matched in `S3Downloader::download_source` (s3.rs lines 214-228). -/
inductive GetObjectErrorKind where
  | invalidObjectState
  | noSuchKey
  | unhandled
  deriving DecidableEq, Repr

/-- The generic error metadata attached to an S3 service error
(`aws_smithy_types::Error`): each field may be absent. -/
structure S3ErrorMeta where
  code : Option String
  message : Option String
  requestId : Option String
  extendedRequestId : Option String
  deriving DecidableEq, Repr

/-- `aws_sdk_s3::types::SdkError` for a `GetObject` call, as matched in
`download_source` (s3.rs lines 174-254): the five variants of the SDK error
enum, with a service error carrying the raw HTTP status, the typed error kind
and its metadata. -/
inductive SdkError where
  | constructionFailure
  | dispatchFailure
  | timeoutError
  | responseError
  | serviceError (status : Nat) (kind : GetObjectErrorKind) (meta : S3ErrorMeta)
  deriving DecidableEq, Repr

/-- Outcome of awaiting the `GetObject` request inside the connect timeout:
the outer `tokio::time::timeout` elapsed, the SDK returned an error, or a
response with the given content length and body arrived. -/
inductive S3RequestOutcome where
  | timedOut
  | sdkErr (e : SdkError)
  | success (contentLength : Int) (body : List Nat)
  deriving DecidableEq, Repr

/-- `DownloadStatus` from the downloader interface. -/
inductive DownloadStatus where
  | completed
  | notFound
  deriving DecidableEq, Repr

/-- `DownloadError` variants produced by `download_source`. -/
inductive DownloadError where
  | canceled
  | s3WithCode (status : Nat) (code : String)
  | s3
  | s3Sdk
  | io
  deriving DecidableEq, Repr

/-- Result of running `download_source`: either a value returned normally, or
a panic (an `unwrap()` on a `None`). -/
inductive RunResult where
  | value (r : Except DownloadError DownloadStatus)
  | panicked
  deriving DecidableEq, Repr

/-- Modelled from the spec: `download_stream` (from the download module's
`mod.rs`, which is not among the sources) streams the response body to the
destination path and resolves to `Completed`. -/
def download_stream (body : List Nat) (_dest : Option (List Nat)) :
    Except DownloadError DownloadStatus × Option (List Nat) :=
  (.ok .completed, some body)

/-- `S3Downloader::download_source` (s3.rs lines 153-276), given the outcome
of the `GetObject` request and the current contents of the destination path
(none if absent).  An elapsed connect timeout returns `Err(Canceled)`;
construction, dispatch, timeout and response errors return `Ok(NotFound)`.
For a service error the debug logging first unwraps the metadata's code,
message, request id and extended request id — panicking if any is absent —
then `NoSuchKey` returns `Ok(NotFound)`, and any other kind falls through to
`Err(S3WithCode(status, code))` when a code is present (`Err(S3)` otherwise).
A response whose `content_length` is zero returns `Ok(NotFound)`; only
otherwise is the body streamed to the destination. -/
def S3Downloader.download_source (outcome : S3RequestOutcome)
    (dest : Option (List Nat)) : RunResult × Option (List Nat) :=
  match outcome with
  | .timedOut => (.value (.error .canceled), dest)
  | .sdkErr .constructionFailure => (.value (.ok .notFound), dest)
  | .sdkErr .dispatchFailure => (.value (.ok .notFound), dest)
  | .sdkErr .timeoutError => (.value (.ok .notFound), dest)
  | .sdkErr .responseError => (.value (.ok .notFound), dest)
  | .sdkErr (.serviceError status kind meta) =>
    if meta.code.isNone || meta.message.isNone
        || meta.requestId.isNone || meta.extendedRequestId.isNone then
      (.panicked, dest)
    else
      match kind with
      | .noSuchKey => (.value (.ok .notFound), dest)
      | _ =>
        match meta.code with
        | some c => (.value (.error (.s3WithCode status c)), dest)
        | none => (.value (.error .s3), dest)
  | .success contentLength body =>
    if contentLength = 0 then (.value (.ok .notFound), dest)
    else
      let (r, streamed) := download_stream body dest
      (.value r, streamed)

/-- An outcome on which `download_source` returns before body streaming
begins: the connect-timeout cancellation, any SDK error, or a response with an
empty body. -/
def S3RequestOutcome.early : S3RequestOutcome → Bool
  | .timedOut => true
  | .sdkErr _ => true
  | .success contentLength _ => contentLength = 0

theorem Filesystem.lookup_insert (fs : Filesystem) (p : List String) (v : List Nat) :
    (fs.insert p v).lookup p = some v := by
  simp [Filesystem.insert, Filesystem.lookup, List.find?]

/-- C1: For the filesystem backend with any root directory and any key,
storing data for the key (`store` returning `Written n`) and then fetching the
key into an empty sink writes exactly the stored bytes into the sink and
returns `some n`, where `n` is the byte length of the data. -/
theorem fs_store_fetch_roundtrip (root : List String) (key : SharedCacheKey)
    (src : FileHandle) (fs : Filesystem) (n : Nat)
    (h : (FilesystemSharedCacheConfig.store root key src fs).result
      = .ok (.written n)) :
    n = src.content.length ∧
    FilesystemSharedCacheConfig.fetch root key
        (FilesystemSharedCacheConfig.store root key src fs).fs []
      = (.ok (some n), src.content) := by
  unfold FilesystemSharedCacheConfig.store at h ⊢
  by_cases hm : (fs.lookup (root ++ key.relativePath)).isSome = true
  · rw [if_pos hm] at h
    exact absurd h (by simp)
  · rw [if_neg hm] at h ⊢
    have hb : src.rewind.readToEnd = src.content := by
      simp [FileHandle.rewind, FileHandle.readToEnd]
    dsimp only at h ⊢
    rw [hb] at h ⊢
    simp only [Except.ok.injEq, SharedCacheStoreResult.written.injEq] at h
    unfold FilesystemSharedCacheConfig.fetch
    simp [Filesystem.lookup_insert, h]

/-- Closed instance of the round-trip: storing three bytes in an empty
filesystem and fetching them back. -/
theorem fs_store_fetch_roundtrip_witness :
    (3 : Nat) = ([7, 8, 9] : List Nat).length ∧
    FilesystemSharedCacheConfig.fetch ["root"] ⟨.objects, 0, ⟨"item", .global⟩⟩
        (FilesystemSharedCacheConfig.store ["root"] ⟨.objects, 0, ⟨"item", .global⟩⟩
          ⟨[7, 8, 9], 2⟩ ([] : Filesystem)).fs []
      = (.ok (some 3), [7, 8, 9]) :=
  fs_store_fetch_roundtrip ["root"] ⟨.objects, 0, ⟨"item", .global⟩⟩
    ⟨[7, 8, 9], 2⟩ ([] : Filesystem) 3 (by decide)

/-- C8: for the filesystem backend and a key whose target path already exists,
`store` returns `Skipped` and leaves the filesystem, in particular the
existing content, byte-for-byte unchanged and creates no temp file; only when
the target is absent is a temp file created in the sibling `.tmp` directory
under the parent and the content renamed into place. -/
theorem fs_store_existing_skipped (root : List String) (key : SharedCacheKey)
    (src : FileHandle) (fs : Filesystem) (c : List Nat)
    (h : fs.lookup (root ++ key.relativePath) = some c) :
    FilesystemSharedCacheConfig.store root key src fs
      = { result := .ok .skipped, fs := fs, tmpDir := none } ∧
    (FilesystemSharedCacheConfig.store root key src fs).fs.lookup
        (root ++ key.relativePath) = some c ∧
    (∀ fs' : Filesystem, fs'.lookup (root ++ key.relativePath) = none →
      (FilesystemSharedCacheConfig.store root key src fs').tmpDir
        = some ((root ++ key.relativePath).dropLast ++ [".tmp"]) ∧
      (FilesystemSharedCacheConfig.store root key src fs').fs.lookup
          (root ++ key.relativePath) = some src.content) := by
  have hs : (fs.lookup (root ++ key.relativePath)).isSome = true := by
    rw [h]; rfl
  refine ⟨?_, ?_, ?_⟩
  · unfold FilesystemSharedCacheConfig.store
    simp [hs]
  · unfold FilesystemSharedCacheConfig.store
    simp [hs, h]
  · intro fs' h'
    have hs' : (fs'.lookup (root ++ key.relativePath)).isSome = false := by
      rw [h']; rfl
    unfold FilesystemSharedCacheConfig.store
    simp [hs', Filesystem.lookup_insert, FileHandle.rewind, FileHandle.readToEnd]

/-- Closed instance of the skip-on-existing behaviour: a filesystem already
holding bytes for the key is returned unchanged with `Skipped`. -/
theorem fs_store_existing_skipped_witness :
    FilesystemSharedCacheConfig.store ["root"] ⟨.objects, 0, ⟨"item", .global⟩⟩
        ⟨[1, 2], 0⟩ [(["root", "objects", "0", "global", "item"], [9])]
      = { result := .ok .skipped,
          fs := [(["root", "objects", "0", "global", "item"], [9])], tmpDir := none } ∧
    (FilesystemSharedCacheConfig.store ["root"] ⟨.objects, 0, ⟨"item", .global⟩⟩
        ⟨[1, 2], 0⟩ [(["root", "objects", "0", "global", "item"], [9])]).fs.lookup
        (["root"] ++ SharedCacheKey.relativePath ⟨.objects, 0, ⟨"item", .global⟩⟩)
      = some [9] ∧
    (∀ fs' : Filesystem,
      fs'.lookup (["root"] ++ SharedCacheKey.relativePath ⟨.objects, 0, ⟨"item", .global⟩⟩) = none →
      (FilesystemSharedCacheConfig.store ["root"] ⟨.objects, 0, ⟨"item", .global⟩⟩
          ⟨[1, 2], 0⟩ fs').tmpDir
        = some ((["root"] ++ SharedCacheKey.relativePath
            ⟨.objects, 0, ⟨"item", .global⟩⟩).dropLast ++ [".tmp"]) ∧
      (FilesystemSharedCacheConfig.store ["root"] ⟨.objects, 0, ⟨"item", .global⟩⟩
          ⟨[1, 2], 0⟩ fs').fs.lookup
          (["root"] ++ SharedCacheKey.relativePath ⟨.objects, 0, ⟨"item", .global⟩⟩)
        = some [1, 2]) :=
  fs_store_existing_skipped ["root"] ⟨.objects, 0, ⟨"item", .global⟩⟩ ⟨[1, 2], 0⟩
    [(["root", "objects", "0", "global", "item"], [9])] [9] (by decide)

theorem mem_ite_singleton {α : Type} (c : Prop) [Decidable c] (x a : α) :
    (a ∈ if c then [x] else []) ↔ c ∧ a = x := by
  split
  · simp_all
  · simp_all

theorem workerStep_slot_sum (maxConc qcap : Nat) {s t : WorkerState}
    (h : t ∈ workerStep maxConc qcap s) :
    t.counter + t.inflight + t.doneQueued = s.counter + s.inflight + s.doneQueued := by
  unfold workerStep at h
  simp only [List.mem_append, mem_ite_singleton] at h
  rcases h with ((((⟨hc, rfl⟩ | ⟨hc, rfl⟩) | ⟨hc, rfl⟩) | ⟨hc, rfl⟩) | ⟨hc, rfl⟩) <;>
    simp_all <;> omega

/-- C2: the upload worker's `select!` can only reach its `else => break`
branch when both other branches are disabled, but the done branch is never
disabled: the worker itself keeps a sender of its internal done channel alive,
so `done_rx.recv()` never resolves to `None`.  In particular, in the state
reached once the work channel has closed with no uploads in flight, the loop
has no enabled transition at all: the worker blocks forever inside the select
instead of reaching the break branch, contradicting the claimed termination. -/
theorem upload_worker_close_never_breaks :
    (∀ s : WorkerState, s.canBreak = false) ∧
    WorkerState.canBreak
        { queued := 0, workClosed := true, counter := 1, inflight := 0, doneQueued := 0 }
      = false ∧
    workerStep 1 1 { queued := 0, workClosed := true, counter := 1, inflight := 0, doneQueued := 0 }
      = [] := by
  refine ⟨?_, by decide, by decide⟩
  intro s
  simp [WorkerState.canBreak, WorkerState.doneBranchDisabled, WorkerState.doneSenders]

/-- C6: at every state the upload worker loop and its environment reach from
the initial state, the number of dispatched-but-not-yet-completed uploads is
at most `max_concurrent_uploads`: every step preserves the slot accounting
`counter + inflight + doneQueued = max_concurrent_uploads`. -/
theorem upload_worker_inflight_bounded (maxConc qcap : Nat) (s : WorkerState)
    (h : WorkerReaches maxConc qcap (workerInit maxConc) s) : s.inflight ≤ maxConc := by
  unfold WorkerReaches at h
  have hsum : s.counter + s.inflight + s.doneQueued = maxConc := by
    induction h with
    | refl => simp [workerInit]
    | tail _ hstep ih =>
      rw [workerStep_slot_sum maxConc qcap hstep]
      exact ih
  omega

/-- Closed instance of the concurrency bound, at the state reached after the
facade enqueues one message. -/
theorem upload_worker_inflight_bounded_witness :
    ({ queued := 1, workClosed := false, counter := 2, inflight := 0, doneQueued := 0 } :
      WorkerState).inflight ≤ 2 :=
  upload_worker_inflight_bounded 2 4
    { queued := 1, workClosed := false, counter := 2, inflight := 0, doneQueued := 0 }
    (Relation.ReflTransGen.single (by decide))

/-- C4: when the facade is initialised and the upload queue is full, `store`
still returns without error: the message is not enqueued (dropped exactly
once), the `store.dropped` counter is incremented by one, the queue is left
unchanged, and the returned completion signal is one whose sender has already
been dropped, so it can never fire. -/
theorem facade_store_queue_full (i : InnerSharedCacheService) (dropped : Nat)
    (msg : UploadMessageM) (h : i.capacity ≤ i.queue.length) :
    SharedCacheService.store (some i) dropped msg
      = (some { senderDropped := true }, some i, dropped + 1) := by
  unfold SharedCacheService.store
  dsimp only
  rw [if_neg (by omega)]

/-- Closed instance of the queue-full drop: capacity one, one message already
queued. -/
theorem facade_store_queue_full_witness :
    SharedCacheService.store
        (some { backend := .fs ["root"],
                queue := [⟨⟨.objects, 0, ⟨"a", .global⟩⟩, ⟨[], 0⟩, .new⟩],
                capacity := 1 }) 0
        ⟨⟨.objects, 0, ⟨"b", .global⟩⟩, ⟨[1], 0⟩, .new⟩
      = (some { senderDropped := true },
         some { backend := .fs ["root"],
                queue := [⟨⟨.objects, 0, ⟨"a", .global⟩⟩, ⟨[], 0⟩, .new⟩],
                capacity := 1 }, 1) :=
  facade_store_queue_full
    { backend := .fs ["root"],
      queue := [⟨⟨.objects, 0, ⟨"a", .global⟩⟩, ⟨[], 0⟩, .new⟩],
      capacity := 1 } 0
    ⟨⟨.objects, 0, ⟨"b", .global⟩⟩, ⟨[1], 0⟩, .new⟩ (by decide)

/-- C5: for an unconfigured facade (inner state never installed), every fetch
returns `false` with nothing written to the writer and every store returns
`none`, with no effect on any backend state, queue or counter. -/
theorem facade_unconfigured_noop (fs : Filesystem)
    (gcsOutcome : Except CacheError (Option (List Nat))) (key : SharedCacheKey)
    (writer : List Nat) (dropped : Nat) (msg : UploadMessageM) :
    SharedCacheService.fetch none fs gcsOutcome key writer = (false, writer) ∧
    SharedCacheService.store none dropped msg = (none, none, dropped) :=
  ⟨rfl, rfl⟩

theorem gcs_storeUpload_trace (bucket : String) (key : SharedCacheKey)
    (src : FileHandle) (ec1 ec2 : Bool) (status : Nat) :
    (GcsState.storeUpload bucket key src ec1 ec2 (.ok ()) (.response status)).request
      = some { url := gcsUploadUrl bucket key.gcsBucketKey, body := src.content } ∧
    (statusIsSuccess status = true →
      (GcsState.storeUpload bucket key src ec1 ec2 (.ok ()) (.response status)).result
        = .ok (.written src.content.length)) ∧
    (status = 412 →
      (GcsState.storeUpload bucket key src ec1 ec2 (.ok ()) (.response status)).result
        = .ok .skipped) := by
  unfold GcsState.storeUpload
  dsimp only [FileHandle.seekEnd, FileHandle.rewind, FileHandle.readToEnd]
  refine ⟨by simp, ?_, ?_⟩
  · intro hs
    simp [hs]
  · intro h412
    subst h412
    simp [statusIsSuccess]

theorem gcs_storeUpload_request_isSome (bucket : String) (key : SharedCacheKey)
    (src : FileHandle) (ec1 ec2 : Bool) (uploadOutcome : HttpOutcome) :
    (GcsState.storeUpload bucket key src ec1 ec2 (.ok ()) uploadOutcome).request.isSome
      = true := by
  unfold GcsState.storeUpload
  rfl

/-- C3: whenever the cloud (GCS) backend store issues an upload request, that
request carries the `ifGenerationMatch=0` query pair (write only if no object
exists yet) and streams the full rewound file as its body; the file length is
measured by seeking to the end and rewinding, a 2xx response yields
`Written(bytes)` with `bytes` equal to that measured length, and a 412
Precondition Failed response yields `Skipped`. -/
theorem gcs_store_upload_request (bucket : String) (key : SharedCacheKey)
    (src : FileHandle) (reason : CacheStoreReason)
    (existsOutcome : Except CacheError Bool) (status : Nat) (req : GcsUploadRequest)
    (hreq : (GcsState.store bucket key src reason existsOutcome (.ok ()) (.response status)).request
      = some req) :
    ("ifGenerationMatch", "0") ∈ req.url.queryPairs ∧
    req.body = src.content ∧
    (statusIsSuccess status = true →
      (GcsState.store bucket key src reason existsOutcome (.ok ()) (.response status)).result
        = .ok (.written src.content.length)) ∧
    (status = 412 →
      (GcsState.store bucket key src reason existsOutcome (.ok ()) (.response status)).result
        = .ok .skipped) := by
  have main : ∀ ec1 ec2 : Bool,
      GcsState.store bucket key src reason existsOutcome (.ok ()) (.response status)
        = GcsState.storeUpload bucket key src ec1 ec2 (.ok ()) (.response status) →
      ("ifGenerationMatch", "0") ∈ req.url.queryPairs ∧
      req.body = src.content ∧
      (statusIsSuccess status = true →
        (GcsState.store bucket key src reason existsOutcome (.ok ()) (.response status)).result
          = .ok (.written src.content.length)) ∧
      (status = 412 →
        (GcsState.store bucket key src reason existsOutcome (.ok ()) (.response status)).result
          = .ok .skipped) := by
    intro ec1 ec2 heq
    rw [heq] at hreq ⊢
    obtain ⟨h1, h2, h3⟩ := gcs_storeUpload_trace bucket key src ec1 ec2 status
    rw [h1] at hreq
    obtain rfl : req = { url := gcsUploadUrl bucket key.gcsBucketKey, body := src.content } :=
      (Option.some.injEq _ _ ▸ hreq).symm
    refine ⟨by simp [gcsUploadUrl], rfl, h2, h3⟩
  cases reason with
  | new => exact main false false rfl
  | refresh =>
    match existsOutcome with
    | .ok true => simp [GcsState.store] at hreq
    | .ok false => exact main true false rfl
    | .error .connectTimeout => exact main true false rfl
    | .error (.other m) => exact main true true rfl

/-- Closed instance of the conditional upload: a three-byte file uploaded with
a 200 response. -/
theorem gcs_store_upload_request_witness :
    ("ifGenerationMatch", "0") ∈
      (gcsUploadUrl "bucket" (SharedCacheKey.gcsBucketKey ⟨.objects, 0, ⟨"item", .global⟩⟩)).queryPairs ∧
    ([7, 8, 9] : List Nat) = (⟨[7, 8, 9], 1⟩ : FileHandle).content ∧
    (statusIsSuccess 200 = true →
      (GcsState.store "bucket" ⟨.objects, 0, ⟨"item", .global⟩⟩ ⟨[7, 8, 9], 1⟩ .new
          (.ok false) (.ok ()) (.response 200)).result
        = .ok (.written (⟨[7, 8, 9], 1⟩ : FileHandle).content.length)) ∧
    (200 = 412 →
      (GcsState.store "bucket" ⟨.objects, 0, ⟨"item", .global⟩⟩ ⟨[7, 8, 9], 1⟩ .new
          (.ok false) (.ok ()) (.response 200)).result
        = .ok .skipped) :=
  gcs_store_upload_request "bucket" ⟨.objects, 0, ⟨"item", .global⟩⟩ ⟨[7, 8, 9], 1⟩ .new
    (.ok false) 200
    { url := gcsUploadUrl "bucket" (SharedCacheKey.gcsBucketKey ⟨.objects, 0, ⟨"item", .global⟩⟩),
      body := [7, 8, 9] } (by rfl)

theorem gcs_storeUpload_existsCalled (bucket : String) (key : SharedCacheKey)
    (src : FileHandle) (ec1 ec2 : Bool) (tokenOutcome : Except String Unit)
    (uploadOutcome : HttpOutcome) :
    (GcsState.storeUpload bucket key src ec1 ec2 tokenOutcome uploadOutcome).existsCalled
      = ec1 := by
  unfold GcsState.storeUpload
  cases tokenOutcome <;> rfl

theorem gcs_storeUpload_captured (bucket : String) (key : SharedCacheKey)
    (src : FileHandle) (ec1 ec2 : Bool) (tokenOutcome : Except String Unit)
    (uploadOutcome : HttpOutcome) :
    (GcsState.storeUpload bucket key src ec1 ec2 tokenOutcome uploadOutcome).existsErrorCaptured
      = ec2 := by
  unfold GcsState.storeUpload
  cases tokenOutcome <;> rfl

/-- C7: the cloud (GCS) backend store consults `exists` first exactly when the
reason is `Refresh`: if `exists` returns true the store returns `Skipped`
without issuing any upload; if `exists` errors, the error is swallowed,
captured to telemetry only when it is not a connect timeout, and the upload
proceeds anyway; with reason `New`, `exists` is not consulted. -/
theorem gcs_store_refresh_exists (bucket : String) (key : SharedCacheKey)
    (src : FileHandle) (existsOutcome : Except CacheError Bool)
    (tokenOutcome : Except String Unit) (uploadOutcome : HttpOutcome) :
    (GcsState.store bucket key src .refresh existsOutcome tokenOutcome uploadOutcome).existsCalled
      = true ∧
    (GcsState.store bucket key src .new existsOutcome tokenOutcome uploadOutcome).existsCalled
      = false ∧
    (existsOutcome = .ok true →
      GcsState.store bucket key src .refresh existsOutcome tokenOutcome uploadOutcome
        = { existsCalled := true, existsErrorCaptured := false,
            request := none, result := .ok .skipped }) ∧
    (∀ e : CacheError, existsOutcome = .error e →
      (GcsState.store bucket key src .refresh existsOutcome tokenOutcome uploadOutcome).existsErrorCaptured
        = decide (e ≠ CacheError.connectTimeout) ∧
      (tokenOutcome = .ok () →
        (GcsState.store bucket key src .refresh existsOutcome tokenOutcome uploadOutcome).request.isSome
          = true)) := by
  refine ⟨?_, ?_, ?_, ?_⟩
  · match existsOutcome with
    | .ok true => rfl
    | .ok false => exact gcs_storeUpload_existsCalled ..
    | .error .connectTimeout => exact gcs_storeUpload_existsCalled ..
    | .error (.other m) => exact gcs_storeUpload_existsCalled ..
  · exact gcs_storeUpload_existsCalled ..
  · intro he
    subst he
    rfl
  · intro e he
    subst he
    cases e with
    | connectTimeout =>
      refine ⟨gcs_storeUpload_captured .., ?_⟩
      intro ht
      subst ht
      exact gcs_storeUpload_request_isSome ..
    | other m =>
      refine ⟨gcs_storeUpload_captured .., ?_⟩
      intro ht
      subst ht
      exact gcs_storeUpload_request_isSome ..

/-- C9 counterexample: a `GetObject` failure whose service error metadata
lacks the code (and the other metadata fields) does not return `Ok(NotFound)`
as the claim states: the debug logging unwraps the absent fields and the call
panics before classifying the error. -/
theorem s3_service_error_missing_meta_panics :
    S3Downloader.download_source
        (.sdkErr (.serviceError 404 .noSuchKey ⟨none, none, none, none⟩)) none
      = (.panicked, none) ∧
    RunResult.panicked ≠ RunResult.value (.ok .notFound) := by
  exact ⟨rfl, by decide⟩

/-- C9 (amended): construction, dispatch, timeout and response errors return
`Ok(NotFound)`, as does a successful response with `content_length == 0`; for
a service error whose metadata carries its code, message, request id and
extended request id (otherwise the debug logging panics), `NoSuchKey` returns
`Ok(NotFound)` and any other service error returns `Err(S3WithCode)` with the
HTTP status and the service error code. -/
theorem s3_download_source_classification (dest : Option (List Nat)) (status : Nat)
    (kind : GetObjectErrorKind) (meta : S3ErrorMeta) (c : String) (body : List Nat)
    (hc : meta.code = some c) (hm : meta.message.isSome = true)
    (hr : meta.requestId.isSome = true) (hx : meta.extendedRequestId.isSome = true) :
    (S3Downloader.download_source (.sdkErr .constructionFailure) dest).1
      = .value (.ok .notFound) ∧
    (S3Downloader.download_source (.sdkErr .dispatchFailure) dest).1
      = .value (.ok .notFound) ∧
    (S3Downloader.download_source (.sdkErr .timeoutError) dest).1
      = .value (.ok .notFound) ∧
    (S3Downloader.download_source (.sdkErr .responseError) dest).1
      = .value (.ok .notFound) ∧
    (S3Downloader.download_source (.success 0 body) dest).1
      = .value (.ok .notFound) ∧
    (S3Downloader.download_source (.sdkErr (.serviceError status .noSuchKey meta)) dest).1
      = .value (.ok .notFound) ∧
    (kind ≠ .noSuchKey →
      (S3Downloader.download_source (.sdkErr (.serviceError status kind meta)) dest).1
        = .value (.error (.s3WithCode status c))) := by
  obtain ⟨mv, hmv⟩ := Option.isSome_iff_exists.mp hm
  obtain ⟨rv, hrv⟩ := Option.isSome_iff_exists.mp hr
  obtain ⟨xv, hxv⟩ := Option.isSome_iff_exists.mp hx
  refine ⟨rfl, rfl, rfl, rfl, by simp [S3Downloader.download_source], ?_, ?_⟩
  · simp [S3Downloader.download_source, hc, hmv, hrv, hxv]
  · intro hk
    cases kind with
    | noSuchKey => exact absurd rfl hk
    | invalidObjectState =>
      simp [S3Downloader.download_source, hc, hmv, hrv, hxv]
    | unhandled =>
      simp [S3Downloader.download_source, hc, hmv, hrv, hxv]

/-- Closed instance of the amended classification, at an AccessDenied-style
service error with full metadata. -/
theorem s3_download_source_classification_witness :
    (S3Downloader.download_source (.sdkErr .constructionFailure) none).1
      = .value (.ok .notFound) ∧
    (S3Downloader.download_source (.sdkErr .dispatchFailure) none).1
      = .value (.ok .notFound) ∧
    (S3Downloader.download_source (.sdkErr .timeoutError) none).1
      = .value (.ok .notFound) ∧
    (S3Downloader.download_source (.sdkErr .responseError) none).1
      = .value (.ok .notFound) ∧
    (S3Downloader.download_source (.success 0 [1]) none).1
      = .value (.ok .notFound) ∧
    (S3Downloader.download_source
        (.sdkErr (.serviceError 403 .noSuchKey
          ⟨some "AccessDenied", some "denied", some "rid", some "xrid"⟩)) none).1
      = .value (.ok .notFound) ∧
    (GetObjectErrorKind.unhandled ≠ .noSuchKey →
      (S3Downloader.download_source
          (.sdkErr (.serviceError 403 .unhandled
            ⟨some "AccessDenied", some "denied", some "rid", some "xrid"⟩)) none).1
        = .value (.error (.s3WithCode 403 "AccessDenied"))) :=
  s3_download_source_classification none 403 .unhandled
    ⟨some "AccessDenied", some "denied", some "rid", some "xrid"⟩ "AccessDenied" [1]
    rfl rfl rfl rfl

theorem download_source_sdkErr_frame (e : SdkError) (dest : Option (List Nat)) :
    (S3Downloader.download_source (.sdkErr e) dest).2 = dest := by
  cases e with
  | constructionFailure => rfl
  | dispatchFailure => rfl
  | timeoutError => rfl
  | responseError => rfl
  | serviceError status kind meta =>
    unfold S3Downloader.download_source
    dsimp only
    split
    · rfl
    · cases kind with
      | noSuchKey => rfl
      | invalidObjectState => cases hcode : meta.code <;> simp
      | unhandled => cases hcode : meta.code <;> simp

/-- C10: whenever the S3 `download_source` returns before body streaming
begins -- the connect-timeout cancellation, any SDK error (construction,
dispatch, timeout, response, `NoSuchKey`, or any other service error), or a
response with an empty body -- and whenever it returns `Ok(NotFound)`, the
destination path is left untouched. -/
theorem s3_download_source_dest_untouched (outcome : S3RequestOutcome)
    (dest : Option (List Nat)) :
    (outcome.early = true →
      (S3Downloader.download_source outcome dest).2 = dest) ∧
    ((S3Downloader.download_source outcome dest).1 = .value (.ok .notFound) →
      (S3Downloader.download_source outcome dest).2 = dest) := by
  constructor
  · intro hearly
    cases outcome with
    | timedOut => rfl
    | sdkErr e => exact download_source_sdkErr_frame e dest
    | success contentLength body =>
      simp only [S3RequestOutcome.early, decide_eq_true_eq] at hearly
      simp [S3Downloader.download_source, hearly]
  · intro hnf
    cases outcome with
    | timedOut => rfl
    | sdkErr e => exact download_source_sdkErr_frame e dest
    | success contentLength body =>
      by_cases hcl : contentLength = 0
      · simp [S3Downloader.download_source, hcl]
      · simp [S3Downloader.download_source, hcl, download_stream] at hnf

end Symbolicator
